import Mathlib

set_option maxRecDepth 8000

/-!
Shallow embedding of the Veridion Nexus compliance interception layer
(`sdks/common/veridion_client.py` and the per-vendor wrapper SDKs), with
theorems settling the frozen behavioural claims about it.

Modelling conventions:
* Python `str` is Lean `String`; Python character slicing `s[:n]` is
  `String.mk (s.data.take n)`.
* `os.getenv` is a pure environment lookup `String → Option String`.
* Python truthiness of `Optional[str]` values (`None` and `""` are falsy,
  as used by `x or y` and `if self.api_key:`) is made explicit.
* The HTTP transport (`httpx.AsyncClient.post`) is an oracle
  `LedgerRequest → HttpOutcome`: either a transport-level failure
  (connect/timeout exception) or a response with a status code and a
  parsed JSON body (represented abstractly as a `String`).
* A wrapped backend call is an oracle outcome: either a response together
  with its elapsed wall-clock time in milliseconds (the span measured by
  the `time.time()` bracketing in the source), or a raised exception
  carrying a message.
* Exceptions are values of an error type; Python `raise` becomes an
  `Except.error` result.  Power-rating floats (250.0 / 100.0 watts) are
  modelled in integer watts.
* `asyncio.create_task(...)` (fire-and-forget delivery) performs the
  submission but discards its outcome; `await` (awaited delivery)
  propagates a submission failure as an exception.
-/

namespace Veridion

/-- The JSON body POSTed to the ledger: the `data` dict built in
`VeridionClient.log_action` (the AuditEvent of the data model). -/
structure AuditEvent where
  agent_id : String
  action : String
  payload : String
  target_region : String
  user_id : Option String
  requires_human_oversight : Bool
  inference_time_ms : Option Nat
  gpu_power_rating_watts : Option Nat
  cpu_power_rating_watts : Option Nat
  system_id : Option String
  model_name : Option String
  model_version : Option String
  hardware_type : Option String
deriving Repr, DecidableEq

/-- The keyword arguments of `VeridionClient.log_action`, with the same
defaults as the Python signature (`target_region="EU"`, everything else
absent). -/
structure LogArgs where
  action : String
  payload : String
  target_region : String := "EU"
  user_id : Option String := none
  requires_human_oversight : Bool := false
  inference_time_ms : Option Nat := none
  gpu_power_rating_watts : Option Nat := none
  cpu_power_rating_watts : Option Nat := none
  system_id : Option String := none
  model_name : Option String := none
  model_version : Option String := none
  hardware_type : Option String := none
deriving Repr, DecidableEq

/-- Python `x or y` for `x : Optional[str]`, `y : str`: `None` and the
empty string are falsy. -/
def pyOrStr : Option String → String → String
  | some s, d => if s = "" then d else s
  | none, d => d

/-- Python `x or y` for `x y : Optional[str]`. -/
def pyOrOptStr : Option String → Option String → Option String
  | some s, y => if s = "" then y else some s
  | none, y => y

/-- Python truthiness of an `Optional[str]`. -/
def pyTruthy : Option String → Bool
  | some s => !(s == "")
  | none => false

/-- Python `s.startswith(p)`: `p` is a character-level prefix of `s`
(Python strings are character sequences, so the check is on the char
lists). -/
def pyStartsWith (s p : String) : Bool := p.data.isPrefixOf s.data

/-- `os.getenv(key, default)`. -/
def osGetenvD (env : String → Option String) (k d : String) : String :=
  (env k).getD d

/-- The state of a `VeridionClient` after `__init__` (the `httpx`
transport itself is modelled at call sites as an oracle). -/
structure VeridionClient where
  api_url : String
  api_key : Option String
  agent_id : String
deriving Repr, DecidableEq

/-- `VeridionClient.__init__`: each field is `argument or
os.getenv(VAR[, default])` with Python truthiness. -/
def VeridionClient.init (env : String → Option String)
    (api_url api_key agent_id : Option String) : VeridionClient where
  api_url := pyOrStr api_url (osGetenvD env "VERIDION_API_URL" "http://localhost:8080")
  api_key := pyOrOptStr api_key (env "VERIDION_API_KEY")
  agent_id := pyOrStr agent_id (osGetenvD env "VERIDION_AGENT_ID" "default-agent")

/-- One HTTP POST as issued by `log_action`: URL, headers, JSON body. -/
structure LedgerRequest where
  url : String
  headers : List (String × String)
  body : AuditEvent
deriving Repr, DecidableEq

/-- Outcome of one `httpx` POST: a raised transport exception
(connect/timeout), or a response with status code and parsed JSON body. -/
inductive HttpOutcome where
  | transportFail (msg : String)
  | response (status : Nat) (jsonBody : String)
deriving Repr, DecidableEq

/-- Exceptions the ledger client can raise from `log_action`:
the `ValueError` on a 403, the `httpx.HTTPStatusError` from
`raise_for_status()` on any other non-2xx, or the transport exception. -/
inductive LedgerFailure where
  | sovereigntyRejected (msg : String)
  | httpStatusError (status : Nat)
  | transportError (msg : String)
deriving Repr, DecidableEq

/-- `httpx.Response.is_success` (the condition under which
`raise_for_status()` does not raise, httpx ≥ 0.24): status in 200..299. -/
def is2xx (s : Nat) : Bool := 200 ≤ s && s < 300

/-- Python `str(e)` for a ledger exception (used when an error event's
payload is built from a caught exception; the exact rendering of httpx
exception messages does not matter to any claim, only the `ValueError`
message is prescribed by the source). -/
def LedgerFailure.pyStr : LedgerFailure → String
  | .sovereigntyRejected m => m
  | .httpStatusError s => "HTTP status error " ++ toString s
  | .transportError m => m

/-- The headers dict of `log_action`: `Authorization: Bearer <key>` is
added iff `self.api_key` is truthy. -/
def authHeaders : Option String → List (String × String)
  | some k => if k = "" then [] else [("Authorization", "Bearer " ++ k)]
  | none => []

/-- The single POST request that `log_action` issues: URL
`{api_url}/api/v1/log_action`, the auth headers, and the `data` dict with
`agent_id` taken from the client. -/
def VeridionClient.buildRequest (c : VeridionClient) (a : LogArgs) : LedgerRequest where
  url := c.api_url ++ "/api/v1/log_action"
  headers := authHeaders c.api_key
  body :=
    { agent_id := c.agent_id
      action := a.action
      payload := a.payload
      target_region := a.target_region
      user_id := a.user_id
      requires_human_oversight := a.requires_human_oversight
      inference_time_ms := a.inference_time_ms
      gpu_power_rating_watts := a.gpu_power_rating_watts
      cpu_power_rating_watts := a.cpu_power_rating_watts
      system_id := a.system_id
      model_name := a.model_name
      model_version := a.model_version
      hardware_type := a.hardware_type }

/-- Result of one `log_action` call: what it returns or raises, and the
list of POST attempts it made (in order). -/
structure LogOutcome where
  result : Except LedgerFailure String
  posts : List LedgerRequest
deriving Repr

/-- `VeridionClient.log_action`: build headers and body, POST once, then
map the outcome — a raised transport exception propagates; a 403 raises
the sovereignty `ValueError`; `raise_for_status()` raises on any other
non-2xx; otherwise the parsed JSON body is returned.  No retry. -/
def VeridionClient.log_action (c : VeridionClient) (a : LogArgs)
    (http : LedgerRequest → HttpOutcome) : LogOutcome :=
  let req := c.buildRequest a
  match http req with
  | .transportFail m => { result := .error (.transportError m), posts := [req] }
  | .response status body =>
      if status = 403 then
        { result := .error (.sovereigntyRejected
            "SOVEREIGN_LOCK_VIOLATION: Action blocked due to data sovereignty requirements")
          posts := [req] }
      else if is2xx status then
        { result := .ok body, posts := [req] }
      else
        { result := .error (.httpStatusError status), posts := [req] }

/-- Exceptions observable from a wrapper invocation: the `ValueError`
raised by a region check, an exception raised by the wrapped backend
call, or a ledger-client exception that escaped an awaited
`log_action`. -/
inductive PyError where
  | sovereignLock (msg : String)
  | backendError (msg : String)
  | ledgerFailure (e : LedgerFailure)
deriving Repr, DecidableEq

/-- Outcome of one wrapped (single-shot) backend call: a response
together with the elapsed wall-clock milliseconds measured by the
`time.time()` bracket around it, or a raised exception. -/
inductive BackendOutcome (ρ : Type) where
  | ok (resp : ρ) (elapsed_ms : Nat)
  | raises (msg : String)
deriving Repr

/-- Observable effects of one wrapper invocation: what it returns or
raises, the ledger POSTs attempted (in order), and whether the backend
adapter was called at all. -/
structure InvokeResult (ρ : Type) where
  result : Except PyError ρ
  posts : List LedgerRequest
  backendCalled : Bool
deriving Repr

/-! ### OpenAI MCP wrapper (`sdks/openai_mcp/veridion_openai_mcp.py`) -/

/-- State of a `VeridionOpenAIMCP` (the OpenAI SDK client itself is the
backend oracle at call sites). -/
structure VeridionOpenAIMCP where
  veridion : VeridionClient
deriving Repr, DecidableEq

/-- `VeridionOpenAIMCP.__init__`: builds the `VeridionClient` with
`agent_id or "openai-mcp-agent"`.  No region check of any kind. -/
def VeridionOpenAIMCP.init (env : String → Option String)
    (veridion_api_url veridion_api_key agent_id : Option String) :
    VeridionOpenAIMCP where
  veridion := VeridionClient.init env veridion_api_url veridion_api_key
    (some (pyOrStr agent_id "openai-mcp-agent"))

/-- `VeridionOpenAIMCP.chat_completions_create` (awaited delivery).
`messagesJson` stands for `json.dumps(messages)`.  The whole body —
backend call, success-path `await log_action`, `return` — sits inside the
`try`; the `except Exception` branch awaits an error-variant `log_action`
and re-raises, so a ledger exception from the success path is itself
caught, logged as `openai_chat_error`, and re-raised, and a ledger
exception from the error path replaces the exception being handled. -/
def VeridionOpenAIMCP.chat_completions_create {ρ : Type}
    (c : VeridionOpenAIMCP) (model : String) (messagesJson : String)
    (backend : BackendOutcome ρ) (http : LedgerRequest → HttpOutcome) :
    InvokeResult ρ :=
  match backend with
  | .ok resp d =>
      let lr := c.veridion.log_action
        { action := "openai_chat_completion", payload := messagesJson
          inference_time_ms := some d, system_id := some "openai"
          model_name := some model, hardware_type := some "CLOUD" } http
      match lr.result with
      | .ok _ => { result := .ok resp, posts := lr.posts, backendCalled := true }
      | .error e =>
          let lr2 := c.veridion.log_action
            { action := "openai_chat_error", payload := "Error: " ++ e.pyStr } http
          { result := .error (match lr2.result with
              | .ok _ => .ledgerFailure e
              | .error e2 => .ledgerFailure e2)
            posts := lr.posts ++ lr2.posts, backendCalled := true }
  | .raises m =>
      let lr2 := c.veridion.log_action
        { action := "openai_chat_error", payload := "Error: " ++ m } http
      { result := .error (match lr2.result with
          | .ok _ => .backendError m
          | .error e2 => .ledgerFailure e2)
        posts := lr2.posts, backendCalled := true }

/-- Outcome of a wrapped streaming backend call: either the stream
yields `chunks` and completes after `elapsed_ms`, or it yields `chunks`
and then raises. -/
inductive StreamOutcome (χ : Type) where
  | completes (chunks : List χ) (elapsed_ms : Nat)
  | raisesAfter (chunks : List χ) (msg : String)
deriving Repr

/-- One item observable from a streamed invocation, in order: a chunk
yielded to the caller, or a ledger POST. -/
inductive StreamItem (χ : Type) where
  | chunk (c : χ)
  | audit (r : LedgerRequest)
deriving Repr

/-- Observable effects of one streamed wrapper invocation: the
interleaved trace of yielded chunks and ledger POSTs, and how the
generator finishes (normally, or by raising). -/
structure StreamRun (χ : Type) where
  trace : List (StreamItem χ)
  result : Except PyError Unit
deriving Repr

/-- Projection selecting the ledger POSTs of a trace. -/
def auditProj {χ : Type} : StreamItem χ → Option LedgerRequest
  | .chunk _ => none
  | .audit q => some q

/-- Projection selecting the yielded chunks of a trace. -/
def chunkProj {χ : Type} : StreamItem χ → Option χ
  | .chunk c => some c
  | .audit _ => none

/-- The ledger POSTs occurring in a stream trace. -/
def StreamRun.posts {χ : Type} (r : StreamRun χ) : List LedgerRequest :=
  r.trace.filterMap auditProj

/-- The chunks yielded to the caller in a stream trace. -/
def StreamRun.chunksOut {χ : Type} (r : StreamRun χ) : List χ :=
  r.trace.filterMap chunkProj

/-- `VeridionOpenAIMCP.chat_completions_create_stream` (generator,
awaited delivery, fully consumed by the caller): each chunk is yielded
as it is received; after the backend stream completes, one summary
`log_action` is awaited; if the stream (or that awaited submission)
raises, the `except` branch awaits an error-variant `log_action` and
re-raises. -/
def VeridionOpenAIMCP.chat_completions_create_stream {χ : Type}
    (c : VeridionOpenAIMCP) (model : String) (messagesJson : String)
    (backend : StreamOutcome χ) (http : LedgerRequest → HttpOutcome) :
    StreamRun χ :=
  match backend with
  | .completes chunks d =>
      let lr := c.veridion.log_action
        { action := "openai_chat_stream", payload := messagesJson
          inference_time_ms := some d, system_id := some "openai"
          model_name := some model, hardware_type := some "CLOUD" } http
      match lr.result with
      | .ok _ =>
          { trace := chunks.map .chunk ++ lr.posts.map .audit, result := .ok () }
      | .error e =>
          let lr2 := c.veridion.log_action
            { action := "openai_stream_error", payload := "Error: " ++ e.pyStr } http
          { trace := chunks.map .chunk ++ lr.posts.map .audit ++ lr2.posts.map .audit
            result := .error (match lr2.result with
              | .ok _ => .ledgerFailure e
              | .error e2 => .ledgerFailure e2) }
  | .raisesAfter chunks m =>
      let lr2 := c.veridion.log_action
        { action := "openai_stream_error", payload := "Error: " ++ m } http
      { trace := chunks.map .chunk ++ lr2.posts.map .audit
        result := .error (match lr2.result with
          | .ok _ => .backendError m
          | .error e2 => .ledgerFailure e2) }

/-! ### Azure AI wrapper (`sdks/azure_ai/veridion_azure_ai.py`) -/

/-- State of a `VeridionAzureAI`. -/
structure VeridionAzureAI where
  endpoint : String
  veridion : VeridionClient
deriving Repr, DecidableEq

/-- `VeridionAzureAI.__init__`: builds the `VeridionClient` with
`agent_id or "azure-ai-agent"`.  No region check of any kind. -/
def VeridionAzureAI.init (env : String → Option String) (endpoint : String)
    (veridion_api_url veridion_api_key agent_id : Option String) :
    VeridionAzureAI where
  endpoint := endpoint
  veridion := VeridionClient.init env veridion_api_url veridion_api_key
    (some (pyOrStr agent_id "azure-ai-agent"))

/-- `VeridionAzureAI.complete` (awaited delivery).  `messagesStr` stands
for `str(messages)`.  Same try/except shape as the OpenAI wrapper. -/
def VeridionAzureAI.complete {ρ : Type}
    (c : VeridionAzureAI) (messagesStr : String) (model : String)
    (backend : BackendOutcome ρ) (http : LedgerRequest → HttpOutcome) :
    InvokeResult ρ :=
  match backend with
  | .ok resp d =>
      let lr := c.veridion.log_action
        { action := "azure_ai_completion", payload := messagesStr
          inference_time_ms := some d, system_id := some "azure-ai"
          model_name := some model, hardware_type := some "CLOUD" } http
      match lr.result with
      | .ok _ => { result := .ok resp, posts := lr.posts, backendCalled := true }
      | .error e =>
          let lr2 := c.veridion.log_action
            { action := "azure_ai_error", payload := "Error: " ++ e.pyStr } http
          { result := .error (match lr2.result with
              | .ok _ => .ledgerFailure e
              | .error e2 => .ledgerFailure e2)
            posts := lr.posts ++ lr2.posts, backendCalled := true }
  | .raises m =>
      let lr2 := c.veridion.log_action
        { action := "azure_ai_error", payload := "Error: " ++ m } http
      { result := .error (match lr2.result with
          | .ok _ => .backendError m
          | .error e2 => .ledgerFailure e2)
        posts := lr2.posts, backendCalled := true }

/-- `VeridionAzureAI.stream` (generator, awaited delivery, fully
consumed): chunks are yielded as received (no accumulation at all in this
wrapper), then one summary `log_action` is awaited; on an exception the
`except` branch awaits an error-variant `log_action` and re-raises. -/
def VeridionAzureAI.stream {χ : Type}
    (c : VeridionAzureAI) (messagesStr : String) (model : String)
    (backend : StreamOutcome χ) (http : LedgerRequest → HttpOutcome) :
    StreamRun χ :=
  match backend with
  | .completes chunks d =>
      let lr := c.veridion.log_action
        { action := "azure_ai_stream", payload := messagesStr
          inference_time_ms := some d, system_id := some "azure-ai"
          model_name := some model, hardware_type := some "CLOUD" } http
      match lr.result with
      | .ok _ =>
          { trace := chunks.map .chunk ++ lr.posts.map .audit, result := .ok () }
      | .error e =>
          let lr2 := c.veridion.log_action
            { action := "azure_ai_stream_error", payload := "Error: " ++ e.pyStr } http
          { trace := chunks.map .chunk ++ lr.posts.map .audit ++ lr2.posts.map .audit
            result := .error (match lr2.result with
              | .ok _ => .ledgerFailure e
              | .error e2 => .ledgerFailure e2) }
  | .raisesAfter chunks m =>
      let lr2 := c.veridion.log_action
        { action := "azure_ai_stream_error", payload := "Error: " ++ m } http
      { trace := chunks.map .chunk ++ lr2.posts.map .audit
        result := .error (match lr2.result with
          | .ok _ => .backendError m
          | .error e2 => .ledgerFailure e2) }

/-! ### AWS Bedrock wrapper (`sdks/aws_bedrock/veridion_bedrock.py`) -/

/-- The region rule applied by the Bedrock wrapper, at construction and
per call: `region_name.startswith("eu-")`. -/
def bedrockRegionOk (region : String) : Bool := pyStartsWith region "eu-"

/-- The `ValueError` message of the Bedrock constructor and
`invoke_model` region checks. -/
def bedrockViolationMsg : String :=
  "SOVEREIGN_LOCK_VIOLATION: AWS Bedrock must use EU regions (eu-west-1, eu-central-1, etc.)"

/-- State of a `VeridionBedrock` (`self.region` is a plain mutable
attribute in Python; a state with a different `region` represents the
client after external mutation). -/
structure VeridionBedrock where
  region : String
  veridion : VeridionClient
deriving Repr, DecidableEq

/-- `VeridionBedrock.__init__`: raises the sovereignty `ValueError`
unless `region_name` starts with `"eu-"`; otherwise stores the region
and builds the `VeridionClient` with `agent_id or "aws-bedrock-agent"`. -/
def VeridionBedrock.init (env : String → Option String) (region_name : String)
    (veridion_api_url veridion_api_key agent_id : Option String) :
    Except PyError VeridionBedrock :=
  if !bedrockRegionOk region_name then
    .error (.sovereignLock bedrockViolationMsg)
  else
    .ok { region := region_name
          veridion := VeridionClient.init env veridion_api_url veridion_api_key
            (some (pyOrStr agent_id "aws-bedrock-agent")) }

/-- `VeridionBedrock.invoke_model` (detached delivery via
`asyncio.create_task`, whose outcome is discarded): re-checks
`self.region.startswith("eu-")` before anything else; on success submits
one event with the fixed literal `target_region="EU"`; only `ClientError`
backend exceptions are caught and logged, then re-raised.  `bodyJson`
stands for `json.dumps(body)`. -/
def VeridionBedrock.invoke_model {ρ : Type}
    (b : VeridionBedrock) (model_id : String) (bodyJson : String)
    (backend : BackendOutcome ρ) (http : LedgerRequest → HttpOutcome) :
    InvokeResult ρ :=
  if !bedrockRegionOk b.region then
    { result := .error (.sovereignLock bedrockViolationMsg)
      posts := [], backendCalled := false }
  else
    match backend with
    | .ok resp d =>
        let lr := b.veridion.log_action
          { action := "aws_bedrock_invoke", payload := bodyJson
            inference_time_ms := some d, system_id := some "aws-bedrock"
            model_name := some model_id, hardware_type := some "CLOUD" } http
        { result := .ok resp, posts := lr.posts, backendCalled := true }
    | .raises m =>
        let lr := b.veridion.log_action
          { action := "aws_bedrock_error", payload := "Error: " ++ m } http
        { result := .error (.backendError m), posts := lr.posts, backendCalled := true }

/-- Observable effects of one Bedrock streamed invocation (the generator
`invoke_model_with_response_stream`, fully consumed): trace, final
result, and whether the backend was called. -/
structure BedrockStreamRun (χ : Type) where
  trace : List (StreamItem χ)
  result : Except PyError Unit
  backendCalled : Bool
deriving Repr

/-- `VeridionBedrock.invoke_model_with_response_stream` (generator,
detached delivery): re-checks the region (raising
`"SOVEREIGN_LOCK_VIOLATION: Must use EU regions"`) before opening the
backend stream, yields every event as received, then schedules one
summary submission; a caught `ClientError` schedules an error-variant
submission and re-raises. -/
def VeridionBedrock.invoke_model_with_response_stream {χ : Type}
    (b : VeridionBedrock) (model_id : String) (bodyJson : String)
    (backend : StreamOutcome χ) (http : LedgerRequest → HttpOutcome) :
    BedrockStreamRun χ :=
  if !bedrockRegionOk b.region then
    { trace := []
      result := .error (.sovereignLock "SOVEREIGN_LOCK_VIOLATION: Must use EU regions")
      backendCalled := false }
  else
    match backend with
    | .completes chunks d =>
        let lr := b.veridion.log_action
          { action := "aws_bedrock_stream", payload := bodyJson
            inference_time_ms := some d, system_id := some "aws-bedrock"
            model_name := some model_id, hardware_type := some "CLOUD" } http
        { trace := chunks.map .chunk ++ lr.posts.map .audit
          result := .ok (), backendCalled := true }
    | .raisesAfter chunks m =>
        let lr := b.veridion.log_action
          { action := "aws_bedrock_stream_error", payload := "Error: " ++ m } http
        { trace := chunks.map .chunk ++ lr.posts.map .audit
          result := .error (.backendError m), backendCalled := true }

/-! ### GCP Vertex AI wrapper (`sdks/gcp_vertex/veridion_vertex.py`) -/

/-- The region rule applied by the Vertex constructor:
`location.startswith("europe-")`. -/
def vertexLocationOk (location : String) : Bool := pyStartsWith location "europe-"

/-- State of a `VeridionVertexAI` (`self.location` is a plain mutable
attribute). -/
structure VeridionVertexAI where
  location : String
  project : String
  veridion : VeridionClient
deriving Repr, DecidableEq

/-- `VeridionVertexAI.__init__`: raises the sovereignty `ValueError`
unless `location` starts with `"europe-"`; otherwise stores location and
project and builds the `VeridionClient` with
`agent_id or "gcp-vertex-agent"`. -/
def VeridionVertexAI.init (env : String → Option String)
    (project location : String)
    (veridion_api_url veridion_api_key agent_id : Option String) :
    Except PyError VeridionVertexAI :=
  if !vertexLocationOk location then
    .error (.sovereignLock
      "SOVEREIGN_LOCK_VIOLATION: Vertex AI must use EU regions (europe-west1, europe-west4, etc.)")
  else
    .ok { location := location, project := project
          veridion := VeridionClient.init env veridion_api_url veridion_api_key
            (some (pyOrStr agent_id "gcp-vertex-agent")) }

/-- State of a `VeridionChatModel` produced by
`VeridionVertexAI.get_chat_model` (it holds only the model name and the
shared `VeridionClient`; the region is not carried and not re-checked). -/
structure VeridionChatModel where
  model_name : String
  veridion : VeridionClient
deriving Repr, DecidableEq

/-- `VeridionVertexAI.get_chat_model`. -/
def VeridionVertexAI.get_chat_model (v : VeridionVertexAI)
    (model_name : String) : VeridionChatModel where
  model_name := model_name
  veridion := v.veridion

/-- `VeridionChatModel.send_message` (detached delivery): no region
check of any kind; calls the backend, then schedules one submission
(success or error variant) whose outcome is discarded. -/
def VeridionChatModel.send_message {ρ : Type}
    (m : VeridionChatModel) (message : String)
    (backend : BackendOutcome ρ) (http : LedgerRequest → HttpOutcome) :
    InvokeResult ρ :=
  match backend with
  | .ok resp d =>
      let lr := m.veridion.log_action
        { action := "vertex_ai_chat", payload := message
          inference_time_ms := some d, system_id := some "gcp-vertex"
          model_name := some m.model_name, hardware_type := some "CLOUD" } http
      { result := .ok resp, posts := lr.posts, backendCalled := true }
  | .raises msg =>
      let lr := m.veridion.log_action
        { action := "vertex_ai_chat_error", payload := "Error: " ++ msg } http
      { result := .error (.backendError msg), posts := lr.posts, backendCalled := true }

/-! ### HuggingFace wrapper (`sdks/huggingface/veridion_huggingface.py`) -/

/-- The payload bound applied by the HuggingFace wrapper:
`payload[:1000] + "..."` when `len(payload) > 1000` (character-level
slice, modelled on the char list). -/
def truncatePayload (s : String) : String :=
  if s.length > 1000 then String.mk (s.data.take 1000) ++ "..." else s

/-- State of a `VeridionHuggingFacePipeline`. -/
structure VeridionHuggingFacePipeline where
  task : String
  model_name : String
  device : Int
  veridion : VeridionClient
deriving Repr, DecidableEq

/-- `self.hardware_type`: `"GPU"` iff `device >= 0`. -/
def VeridionHuggingFacePipeline.hardware_type
    (p : VeridionHuggingFacePipeline) : String :=
  if p.device ≥ 0 then "GPU" else "CPU"

/-- `VeridionHuggingFacePipeline.__call__` (detached delivery).
`inputsStr` stands for `str(inputs)`.  On success the payload is bounded
by `truncatePayload` before being placed in the event; power ratings are
250 W (GPU) or 100 W (CPU) by device; on any exception an error-variant
submission is scheduled and the exception re-raised. -/
def VeridionHuggingFacePipeline.call {ρ : Type}
    (p : VeridionHuggingFacePipeline) (inputsStr : String)
    (backend : BackendOutcome ρ) (http : LedgerRequest → HttpOutcome) :
    InvokeResult ρ :=
  let gpu_power : Option Nat := if p.device ≥ 0 then some 250 else none
  let cpu_power : Option Nat := if p.device < 0 then some 100 else none
  match backend with
  | .ok resp d =>
      let lr := p.veridion.log_action
        { action := "huggingface_" ++ p.task, payload := truncatePayload inputsStr
          inference_time_ms := some d
          gpu_power_rating_watts := gpu_power, cpu_power_rating_watts := cpu_power
          system_id := some "huggingface", model_name := some p.model_name
          hardware_type := some p.hardware_type } http
      { result := .ok resp, posts := lr.posts, backendCalled := true }
  | .raises m =>
      let lr := p.veridion.log_action
        { action := "huggingface_" ++ p.task ++ "_error", payload := "Error: " ++ m } http
      { result := .error (.backendError m), posts := lr.posts, backendCalled := true }

/-! ### LangChain wrapper (`sdks/langchain/veridion_langchain.py`) -/

/-- State of a `VeridionLangChainWrapper` (`llmModelName` stands for
`getattr(self.llm, 'model_name', getattr(self.llm, '_llm_type',
'unknown'))`). -/
structure VeridionLangChainWrapper where
  llmModelName : String
  veridion : VeridionClient
deriving Repr, DecidableEq

/-- `VeridionLangChainWrapper.ainvoke` (awaited delivery): same
try/except shape as the OpenAI wrapper; payload is the raw `input`
string, untruncated. -/
def VeridionLangChainWrapper.ainvoke {ρ : Type}
    (w : VeridionLangChainWrapper) (input : String)
    (backend : BackendOutcome ρ) (http : LedgerRequest → HttpOutcome) :
    InvokeResult ρ :=
  match backend with
  | .ok resp d =>
      let lr := w.veridion.log_action
        { action := "langchain_async_invoke", payload := input
          inference_time_ms := some d, system_id := some "langchain"
          model_name := some w.llmModelName, hardware_type := some "CLOUD" } http
      match lr.result with
      | .ok _ => { result := .ok resp, posts := lr.posts, backendCalled := true }
      | .error e =>
          let lr2 := w.veridion.log_action
            { action := "langchain_async_error", payload := "Error: " ++ e.pyStr } http
          { result := .error (match lr2.result with
              | .ok _ => .ledgerFailure e
              | .error e2 => .ledgerFailure e2)
            posts := lr.posts ++ lr2.posts, backendCalled := true }
  | .raises m =>
      let lr2 := w.veridion.log_action
        { action := "langchain_async_error", payload := "Error: " ++ m } http
      { result := .error (match lr2.result with
          | .ok _ => .backendError m
          | .error e2 => .ledgerFailure e2)
        posts := lr2.posts, backendCalled := true }

/-! ### Concrete fixtures used by closed theorems -/

/-- An empty process environment. -/
def noEnv : String → Option String := fun _ => none

/-- The client obtained by `VeridionClient()` with no arguments in an
empty environment. -/
def cDefault : VeridionClient := VeridionClient.init noEnv none none none

/-- An HTTP oracle standing for a ledger that accepts every submission
with status 200. -/
def httpOk : LedgerRequest → HttpOutcome := fun _ => .response 200 "sealed"

/-- An HTTP oracle standing for a ledger that answers 500 to every
submission. -/
def http500 : LedgerRequest → HttpOutcome := fun _ => .response 500 "server error"

/-- An OpenAI wrapper built over the default client. -/
def openaiDefault : VeridionOpenAIMCP := VeridionOpenAIMCP.init noEnv none none none

/-- A HuggingFace wrapper fixture (CPU device). -/
def hfDefault : VeridionHuggingFacePipeline :=
  { task := "text-generation", model_name := "distilgpt2", device := -1, veridion := cDefault }

/-- A LangChain wrapper fixture. -/
def lcDefault : VeridionLangChainWrapper :=
  { llmModelName := "llama", veridion := cDefault }

/-- A 1001-character payload (exceeds the 1000-character bound). -/
def longPayload : String := String.mk (List.replicate 1001 'a')

/-- The ledger POSTs occurring in a Bedrock stream trace. -/
def BedrockStreamRun.posts {χ : Type} (r : BedrockStreamRun χ) : List LedgerRequest :=
  r.trace.filterMap auditProj

end Veridion

deriving instance DecidableEq for Except

namespace Veridion

/-! ### Helper lemmas -/

/-- `log_action` always performs exactly the single POST it built. -/
theorem log_action_posts_eq (c : VeridionClient) (a : LogArgs)
    (http : LedgerRequest → HttpOutcome) :
    (c.log_action a http).posts = [c.buildRequest a] := by
  unfold VeridionClient.log_action
  cases hh : http (c.buildRequest a) with
  | transportFail m => simp [hh]
  | response s b => simp only [hh]; split <;> [rfl; split <;> rfl]

/-- The headers of the request built by `log_action`, as a function of
the configured API key's truthiness. -/
theorem buildRequest_headers_eq (c : VeridionClient) (a : LogArgs) :
    (c.buildRequest a).headers =
      if pyTruthy c.api_key then
        [("Authorization", "Bearer " ++ c.api_key.getD "")]
      else [] := by
  cases hk : c.api_key with
  | none => simp [VeridionClient.buildRequest, authHeaders, pyTruthy, hk]
  | some k =>
      by_cases he : k = "" <;>
        simp [VeridionClient.buildRequest, authHeaders, pyTruthy, hk, he]

/-! ### Claim theorems -/

/-- C2: for every AuditEvent submission, the ledger client makes exactly
one HTTP POST attempt (no retry, whatever the outcome, including a raised
transport error); a 403 response raises the sovereignty-rejected
`ValueError`, any other non-2xx raises the generic HTTP-status ledger
error (`raise_for_status`), and a 2xx response returns the parsed JSON
body to the caller. -/
theorem C2_single_post_and_error_mapping (c : VeridionClient) (a : LogArgs)
    (http : LedgerRequest → HttpOutcome) :
    (c.log_action a http).posts = [c.buildRequest a] ∧
    (∀ m, http (c.buildRequest a) = .transportFail m →
      (c.log_action a http).result = .error (.transportError m)) ∧
    (∀ b, http (c.buildRequest a) = .response 403 b →
      (c.log_action a http).result = .error (.sovereigntyRejected
        "SOVEREIGN_LOCK_VIOLATION: Action blocked due to data sovereignty requirements")) ∧
    (∀ s b, http (c.buildRequest a) = .response s b → s ≠ 403 → is2xx s = false →
      (c.log_action a http).result = .error (.httpStatusError s)) ∧
    (∀ s b, http (c.buildRequest a) = .response s b → is2xx s = true →
      (c.log_action a http).result = .ok b) := by
  refine ⟨log_action_posts_eq c a http, ?_, ?_, ?_, ?_⟩
  · intro m hm
    unfold VeridionClient.log_action
    simp [hm]
  · intro b hb
    unfold VeridionClient.log_action
    simp [hb]
  · intro s b hs hne h2
    unfold VeridionClient.log_action
    simp [hs, hne, h2]
  · intro s b hs h2
    have hne : s ≠ 403 := by
      intro h; subst h; simp [is2xx] at h2
    unfold VeridionClient.log_action
    simp [hs, hne, h2]

/-- Witness for C2 at a concrete client, a concrete event and a ledger
answering 200. -/
theorem C2_single_post_and_error_mapping_witness :
    (cDefault.log_action { action := "act", payload := "pl" } httpOk).posts =
      [cDefault.buildRequest { action := "act", payload := "pl" }] ∧
    (cDefault.log_action { action := "act", payload := "pl" } httpOk).result = .ok "sealed" := by
  have h := C2_single_post_and_error_mapping cDefault
    { action := "act", payload := "pl" } httpOk
  exact ⟨h.1, h.2.2.2.2 200 "sealed" rfl rfl⟩

/-- C9: `VeridionClient()` with no arguments in an empty environment
defaults to `api_url = "http://localhost:8080"`, no API key and
`agent_id = "default-agent"`; every subsequent `log_action` POST of that
client carries no `Authorization` header, and in general the single POST
of any client carries a `Bearer` `Authorization` header iff a (truthy)
API key is configured. -/
theorem C9_defaults_and_auth_header :
    VeridionClient.init noEnv none none none =
      { api_url := "http://localhost:8080", api_key := none, agent_id := "default-agent" } ∧
    (∀ (a : LogArgs) (http : LedgerRequest → HttpOutcome),
      ((VeridionClient.init noEnv none none none).log_action a http).posts.map
        LedgerRequest.headers = [[]]) ∧
    (∀ (c : VeridionClient) (a : LogArgs) (http : LedgerRequest → HttpOutcome),
      ((c.log_action a http).posts.map LedgerRequest.headers) =
        [if pyTruthy c.api_key then
            [("Authorization", "Bearer " ++ c.api_key.getD "")]
          else []]) := by
  refine ⟨rfl, ?_, ?_⟩
  · intro a http
    rw [log_action_posts_eq]
    simp [buildRequest_headers_eq]
    rfl
  · intro c a http
    rw [log_action_posts_eq]
    simp [buildRequest_headers_eq]

/-- C1 counterexample: the claim fails for Vertex, whose allow-list
prefix is `"europe-"` but whose per-call operations apply no region
check: with the bound region mutated to `"us-central1"` (a region string
outside the allow-list), `send_message` does not fail, calls the backend
and submits an AuditEvent — contradicting "the invocation fails
immediately, the backend adapter is never called, and zero AuditEvents
are submitted" and "the same prefix rule is applied both at client
construction and per call". -/
theorem C1_counterexample :
    vertexLocationOk "us-central1" = false ∧
    (((VeridionVertexAI.mk "us-central1" "proj" cDefault).get_chat_model
        "chat-bison").send_message "hello" (BackendOutcome.ok "resp" 5) httpOk).backendCalled
      = true ∧
    (((VeridionVertexAI.mk "us-central1" "proj" cDefault).get_chat_model
        "chat-bison").send_message "hello" (BackendOutcome.ok "resp" 5) httpOk).result
      = .ok "resp" ∧
    (((VeridionVertexAI.mk "us-central1" "proj" cDefault).get_chat_model
        "chat-bison").send_message "hello" (BackendOutcome.ok "resp" 5) httpOk).posts.length
      = 1 := by
  exact ⟨by decide, rfl, rfl, rfl⟩

/-- C1 (amended): for Bedrock, any region string not starting with
`"eu-"` makes construction, `invoke_model` and
`invoke_model_with_response_stream` fail immediately with a
`SOVEREIGN_LOCK_VIOLATION` error, with the backend never called and zero
AuditEvents submitted — the same prefix rule at construction and per
call.  For Vertex, the `"europe-"` prefix rule is enforced at
construction only: the per-call chat operations perform no region check
at all (the backend is always called). -/
theorem C1_amended_region_gate (env : String → Option String)
    (u k a : Option String) :
    (∀ r, bedrockRegionOk r = false →
      VeridionBedrock.init env r u k a = .error (.sovereignLock bedrockViolationMsg)) ∧
    (∀ (b : VeridionBedrock), bedrockRegionOk b.region = false →
      ∀ {ρ : Type} (model_id bodyJson : String) (backend : BackendOutcome ρ)
        (http : LedgerRequest → HttpOutcome),
        b.invoke_model model_id bodyJson backend http =
          { result := .error (.sovereignLock bedrockViolationMsg)
            posts := [], backendCalled := false }) ∧
    (∀ (b : VeridionBedrock), bedrockRegionOk b.region = false →
      ∀ {χ : Type} (model_id bodyJson : String) (backend : StreamOutcome χ)
        (http : LedgerRequest → HttpOutcome),
        b.invoke_model_with_response_stream model_id bodyJson backend http =
          { trace := []
            result := .error (.sovereignLock "SOVEREIGN_LOCK_VIOLATION: Must use EU regions")
            backendCalled := false }) ∧
    (∀ p loc, vertexLocationOk loc = false →
      VeridionVertexAI.init env p loc u k a = .error (.sovereignLock
        "SOVEREIGN_LOCK_VIOLATION: Vertex AI must use EU regions (europe-west1, europe-west4, etc.)")) ∧
    (∀ (m : VeridionChatModel) (message : String) {ρ : Type}
      (backend : BackendOutcome ρ) (http : LedgerRequest → HttpOutcome),
      (m.send_message message backend http).backendCalled = true) := by
  refine ⟨?_, ?_, ?_, ?_, ?_⟩
  · intro r hr
    simp [VeridionBedrock.init, hr]
  · intro b hb ρ model_id bodyJson backend http
    simp [VeridionBedrock.invoke_model, hb]
  · intro b hb χ model_id bodyJson backend http
    simp [VeridionBedrock.invoke_model_with_response_stream, hb]
  · intro p loc hl
    simp [VeridionVertexAI.init, hl]
  · intro m message ρ backend http
    cases backend <;> rfl

/-- Witness for C1 (amended) at the concrete disallowed region
`"us-east-1"`. -/
theorem C1_amended_region_gate_witness :
    VeridionBedrock.init noEnv "us-east-1" none none none =
      .error (.sovereignLock bedrockViolationMsg) ∧
    (VeridionBedrock.mk "us-east-1" cDefault).invoke_model "model-x" "req"
        (BackendOutcome.ok "resp" 1) httpOk =
      { result := .error (.sovereignLock bedrockViolationMsg)
        posts := [], backendCalled := false } := by
  have h := C1_amended_region_gate noEnv none none none
  exact ⟨h.1 "us-east-1" (by decide),
    h.2.1 (VeridionBedrock.mk "us-east-1" cDefault) (by decide) "model-x" "req"
      (BackendOutcome.ok "resp" 1) httpOk⟩

/-- C10: a successfully constructed `VeridionBedrock` has a region that
passed the `"eu-"` prefix check, so as long as `self.region` still
equals the accepted `region_name`, the per-call re-check inside
`invoke_model` and `invoke_model_with_response_stream` never raises: the
backend is always reached and no sovereignty error can be the result. -/
theorem C10_per_call_recheck_redundant (env : String → Option String)
    (r : String) (u k a : Option String) (s : VeridionBedrock)
    (h : VeridionBedrock.init env r u k a = .ok s) :
    s.region = r ∧ bedrockRegionOk s.region = true ∧
    (∀ {ρ : Type} (model_id bodyJson : String) (backend : BackendOutcome ρ)
      (http : LedgerRequest → HttpOutcome),
      (s.invoke_model model_id bodyJson backend http).backendCalled = true ∧
      ∀ m, (s.invoke_model model_id bodyJson backend http).result ≠
        .error (.sovereignLock m)) ∧
    (∀ {χ : Type} (model_id bodyJson : String) (backend : StreamOutcome χ)
      (http : LedgerRequest → HttpOutcome),
      (s.invoke_model_with_response_stream model_id bodyJson backend http).backendCalled
        = true ∧
      ∀ m, (s.invoke_model_with_response_stream model_id bodyJson backend http).result ≠
        .error (.sovereignLock m)) := by
  have hr : bedrockRegionOk r = true ∧ s.region = r := by
    unfold VeridionBedrock.init at h
    by_cases hg : bedrockRegionOk r
    · simp only [hg, Bool.not_true, if_neg] at h
      cases h
      exact ⟨hg, rfl⟩
    · simp [hg] at h
  obtain ⟨hg, hreg⟩ := hr
  have hsreg : bedrockRegionOk s.region = true := by rw [hreg]; exact hg
  refine ⟨hreg, hsreg, ?_, ?_⟩
  · intro ρ model_id bodyJson backend http
    constructor
    · cases backend <;> simp [VeridionBedrock.invoke_model, hsreg]
    · intro m
      cases backend <;> simp [VeridionBedrock.invoke_model, hsreg]
  · intro χ model_id bodyJson backend http
    constructor
    · cases backend <;>
        simp [VeridionBedrock.invoke_model_with_response_stream, hsreg]
    · intro m
      cases backend <;>
        simp [VeridionBedrock.invoke_model_with_response_stream, hsreg]

/-- Witness for C10 at the concrete accepted region `"eu-west-1"`. -/
theorem C10_per_call_recheck_redundant_witness :
    (VeridionBedrock.mk "eu-west-1"
      (VeridionClient.init noEnv none none (some "aws-bedrock-agent"))).region = "eu-west-1" ∧
    bedrockRegionOk "eu-west-1" = true ∧
    ((VeridionBedrock.mk "eu-west-1"
        (VeridionClient.init noEnv none none (some "aws-bedrock-agent"))).invoke_model
      "model-x" "req" (BackendOutcome.ok "resp" 1) httpOk).backendCalled = true := by
  have h := C10_per_call_recheck_redundant noEnv "eu-west-1" none none none
    (VeridionBedrock.mk "eu-west-1"
      (VeridionClient.init noEnv none none (some "aws-bedrock-agent"))) (by decide)
  exact ⟨h.1, by rw [← h.1]; exact h.2.1,
    (h.2.2.1 "model-x" "req" (BackendOutcome.ok "resp" 1) httpOk).1⟩

/-- In a trace of chunks followed by audits, the audit projection
recovers exactly the audits. -/
theorem filterMap_auditProj {χ : Type} (cs : List χ) (ps : List LedgerRequest) :
    (cs.map StreamItem.chunk ++ ps.map StreamItem.audit).filterMap auditProj = ps := by
  induction cs with
  | nil =>
      simp only [List.map_nil, List.nil_append]
      induction ps with
      | nil => rfl
      | cons p ps ih => simpa [auditProj] using ih
  | cons c cs ih => simpa [auditProj] using ih

/-- In a trace of chunks followed by audits, the chunk projection
recovers exactly the chunks. -/
theorem filterMap_chunkProj {χ : Type} (cs : List χ) (ps : List LedgerRequest) :
    (cs.map StreamItem.chunk ++ ps.map StreamItem.audit).filterMap chunkProj = cs := by
  induction cs with
  | nil =>
      simp only [List.map_nil, List.nil_append]
      induction ps with
      | nil => rfl
      | cons p ps ih => simp only [List.map_cons]; simp [chunkProj, ih]
  | cons c cs ih => simpa [chunkProj] using ih

/-- The chunk projection composed with the chunk injection is the
identity on a list of chunks. -/
theorem filterMap_chunkProj_comp {χ : Type} (cs : List χ) :
    List.filterMap (chunkProj ∘ StreamItem.chunk) cs = cs := by
  induction cs with
  | nil => rfl
  | cons c cs ih => simpa [chunkProj, Function.comp] using ih

/-- The audit projection composed with the chunk injection yields
nothing on a list of chunks. -/
theorem filterMap_auditProj_comp {χ : Type} (cs : List χ) :
    List.filterMap (auditProj ∘ StreamItem.chunk) cs = [] := by
  induction cs with
  | nil => rfl
  | cons c cs ih => simp [auditProj, Function.comp, ih]

/-- C6 counterexample: a Bedrock client whose Policy Gate checked the
per-call region `"eu-west-1"` (an allowed call, Scenario A of the spec)
submits an AuditEvent whose `target_region` is the fixed literal
`"EU"`, not `"eu-west-1"`. -/
theorem C6_counterexample :
    bedrockRegionOk "eu-west-1" = true ∧
    ((VeridionBedrock.mk "eu-west-1" cDefault).invoke_model "model-x" "req-body"
        (BackendOutcome.ok "resp" 120) httpOk).posts.map
      (fun r => r.body.target_region) = ["EU"] ∧
    ("EU" : String) ≠ "eu-west-1" := by
  exact ⟨by decide, by decide, by decide⟩

/-- C6 (amended): every AuditEvent submitted by the wrappers carries the
hard-coded literal `target_region = "EU"`, regardless of the per-call
region value the Policy Gate actually checked. -/
theorem C6_amended_fixed_literal_region (b : VeridionBedrock)
    (c : VeridionOpenAIMCP) (model_id bodyJson model mj : String)
    {ρ χ : Type} (backend backend2 : BackendOutcome ρ)
    (sbackend : StreamOutcome χ) (http : LedgerRequest → HttpOutcome) :
    ((b.invoke_model model_id bodyJson backend http).posts.all
      (fun r => r.body.target_region == "EU")) = true ∧
    ((b.invoke_model_with_response_stream model_id bodyJson sbackend http).posts.all
      (fun r => r.body.target_region == "EU")) = true ∧
    ((c.chat_completions_create model mj backend2 http).posts.all
      (fun r => r.body.target_region == "EU")) = true := by
  refine ⟨?_, ?_, ?_⟩
  · by_cases hg : bedrockRegionOk b.region
    · cases backend <;>
        simp [VeridionBedrock.invoke_model, hg, log_action_posts_eq,
          VeridionClient.buildRequest]
    · simp [VeridionBedrock.invoke_model, Bool.not_eq_true .. ▸ hg,
        eq_false_of_ne_true hg]
  · by_cases hg : bedrockRegionOk b.region
    · cases sbackend <;>
        simp [VeridionBedrock.invoke_model_with_response_stream, hg,
          BedrockStreamRun.posts, log_action_posts_eq, filterMap_auditProj,
          VeridionClient.buildRequest, auditProj]
    · simp [VeridionBedrock.invoke_model_with_response_stream,
        eq_false_of_ne_true hg, BedrockStreamRun.posts]
  · cases backend2 with
    | ok resp d =>
        cases hres : (c.veridion.log_action
          { action := "openai_chat_completion", payload := mj
            inference_time_ms := some d, system_id := some "openai"
            model_name := some model, hardware_type := some "CLOUD" } http).result <;>
          simp [VeridionOpenAIMCP.chat_completions_create, hres,
            log_action_posts_eq, VeridionClient.buildRequest]
    | raises m =>
        simp [VeridionOpenAIMCP.chat_completions_create,
          log_action_posts_eq, VeridionClient.buildRequest]

/-- C7 counterexample: the OpenAI wrapper applies no payload bound — a
1001-character payload is placed in the submitted AuditEvent unchanged
(the truncation rule would have altered it). -/
theorem C7_counterexample :
    1000 < longPayload.length ∧
    ((openaiDefault.chat_completions_create "gpt-4" longPayload
        (BackendOutcome.ok "resp" 7) httpOk).posts.map
      (fun r => r.body.payload)) = [longPayload] ∧
    truncatePayload longPayload ≠ longPayload := by
  refine ⟨?_, rfl, ?_⟩
  · have h : longPayload.length = 1001 := rfl
    omega
  · intro hEq
    have h1 : (truncatePayload longPayload).length = 1003 := rfl
    have h2 : longPayload.length = 1001 := rfl
    have h3 := congrArg String.length hEq
    omega

/-- C7 (amended): only the HuggingFace wrapper bounds payloads: a
payload longer than 1000 characters is cut to its first 1000 characters
with the marker `"..."` appended before being placed in the submitted
AuditEvent, payloads at or below the bound pass through unchanged, and
the backend result returned to the caller is never altered; the OpenAI
wrapper places its payload in the event unchanged, whatever its
length. -/
theorem C7_amended_payload_truncation (p : VeridionHuggingFacePipeline)
    (inputsStr : String) {ρ : Type} (resp resp2 : ρ) (d d2 : Nat)
    (http : LedgerRequest → HttpOutcome)
    (c : VeridionOpenAIMCP) (model messagesJson : String) :
    (p.call inputsStr (BackendOutcome.ok resp d) http).result = .ok resp ∧
    ((p.call inputsStr (BackendOutcome.ok resp d) http).posts.map
      (fun r => r.body.payload)) = [truncatePayload inputsStr] ∧
    (inputsStr.length ≤ 1000 → truncatePayload inputsStr = inputsStr) ∧
    (1000 < inputsStr.length →
      truncatePayload inputsStr = String.mk (inputsStr.data.take 1000) ++ "...") ∧
    ((c.chat_completions_create model messagesJson (BackendOutcome.ok resp2 d2) http).posts.map
      (fun r => r.body.payload)).head? = some messagesJson := by
  refine ⟨rfl, ?_, ?_, ?_, ?_⟩
  · simp [VeridionHuggingFacePipeline.call, log_action_posts_eq,
      VeridionClient.buildRequest]
  · intro hle
    simp [truncatePayload, Nat.not_lt.mpr hle]
  · intro hgt
    simp [truncatePayload, hgt]
  · cases hres : (c.veridion.log_action
      { action := "openai_chat_completion", payload := messagesJson
        inference_time_ms := some d2, system_id := some "openai"
        model_name := some model, hardware_type := some "CLOUD" } http).result <;>
      simp [VeridionOpenAIMCP.chat_completions_create, hres,
        log_action_posts_eq, VeridionClient.buildRequest]

/-- Witness for C7 (amended): a short payload passes through unchanged
and the caller sees the backend result. -/
theorem C7_amended_payload_truncation_witness :
    (hfDefault.call "short input" (BackendOutcome.ok "result" 3) httpOk).result
      = .ok "result" ∧
    truncatePayload "short input" = "short input" := by
  have h := C7_amended_payload_truncation hfDefault "short input"
    "result" "r2" 3 4 httpOk openaiDefault "gpt-4" "mj"
  exact ⟨h.1, h.2.2.1 (by decide)⟩

/-- C8: for every successful backend call through the OpenAI and Azure
wrappers, exactly one success-variant AuditEvent is submitted, it is the
first submission, and its `inference_time_ms` is exactly the elapsed
milliseconds measured around the backend call itself — the event is a
function of the completed call only (the ledger round-trip plays no part
in it, and the span is a `Nat`, hence non-negative). -/
theorem C8_one_success_event_with_backend_span (c : VeridionOpenAIMCP)
    (az : VeridionAzureAI) (model mj ms : String) {ρ : Type}
    (resp resp2 : ρ) (d d2 : Nat) (http : LedgerRequest → HttpOutcome) :
    let runO := c.chat_completions_create model mj (BackendOutcome.ok resp d) http
    let runA := az.complete ms model (BackendOutcome.ok resp2 d2) http
    runO.posts.countP (fun r => r.body.action == "openai_chat_completion") = 1 ∧
    runO.posts.head? = some (c.veridion.buildRequest
      { action := "openai_chat_completion", payload := mj
        inference_time_ms := some d, system_id := some "openai"
        model_name := some model, hardware_type := some "CLOUD" }) ∧
    (runO.posts.map (fun r => r.body.inference_time_ms)).head? = some (some d) ∧
    runA.posts.countP (fun r => r.body.action == "azure_ai_completion") = 1 ∧
    runA.posts.head? = some (az.veridion.buildRequest
      { action := "azure_ai_completion", payload := ms
        inference_time_ms := some d2, system_id := some "azure-ai"
        model_name := some model, hardware_type := some "CLOUD" }) ∧
    (runA.posts.map (fun r => r.body.inference_time_ms)).head? = some (some d2) := by
  have hne1 : (("openai_chat_error" : String) == "openai_chat_completion") = false := by
    decide
  have hne2 : (("azure_ai_error" : String) == "azure_ai_completion") = false := by
    decide
  refine ⟨?_, ?_, ?_, ?_, ?_, ?_⟩
  case refine_1 =>
    cases hres : (c.veridion.log_action
        { action := "openai_chat_completion", payload := mj
          inference_time_ms := some d, system_id := some "openai"
          model_name := some model, hardware_type := some "CLOUD" } http).result <;>
      simp [VeridionOpenAIMCP.chat_completions_create, hres, log_action_posts_eq,
        VeridionClient.buildRequest, List.countP_cons, List.countP_nil, hne1]
  case refine_2 =>
    cases hres : (c.veridion.log_action
        { action := "openai_chat_completion", payload := mj
          inference_time_ms := some d, system_id := some "openai"
          model_name := some model, hardware_type := some "CLOUD" } http).result <;>
      simp [VeridionOpenAIMCP.chat_completions_create, hres, log_action_posts_eq,
        VeridionClient.buildRequest, List.countP_cons, List.countP_nil, hne1]
  case refine_3 =>
    cases hres : (c.veridion.log_action
        { action := "openai_chat_completion", payload := mj
          inference_time_ms := some d, system_id := some "openai"
          model_name := some model, hardware_type := some "CLOUD" } http).result <;>
      simp [VeridionOpenAIMCP.chat_completions_create, hres, log_action_posts_eq,
        VeridionClient.buildRequest, List.countP_cons, List.countP_nil, hne1]
  case refine_4 =>
    cases hres : (az.veridion.log_action
        { action := "azure_ai_completion", payload := ms
          inference_time_ms := some d2, system_id := some "azure-ai"
          model_name := some model, hardware_type := some "CLOUD" } http).result <;>
      simp [VeridionAzureAI.complete, hres, log_action_posts_eq,
        VeridionClient.buildRequest, List.countP_cons, List.countP_nil, hne2]
  case refine_5 =>
    cases hres : (az.veridion.log_action
        { action := "azure_ai_completion", payload := ms
          inference_time_ms := some d2, system_id := some "azure-ai"
          model_name := some model, hardware_type := some "CLOUD" } http).result <;>
      simp [VeridionAzureAI.complete, hres, log_action_posts_eq,
        VeridionClient.buildRequest, List.countP_cons, List.countP_nil, hne2]
  case refine_6 =>
    cases hres : (az.veridion.log_action
        { action := "azure_ai_completion", payload := ms
          inference_time_ms := some d2, system_id := some "azure-ai"
          model_name := some model, hardware_type := some "CLOUD" } http).result <;>
      simp [VeridionAzureAI.complete, hres, log_action_posts_eq,
        VeridionClient.buildRequest, List.countP_cons, List.countP_nil, hne2]

/-- C5: for every streamed invocation whose backend stream completes,
the chunks observed by the caller are exactly the backend's chunks, in
order and count; every chunk appears in the trace before any ledger
POST (each chunk is forwarded as received, no event per chunk, none
before completion); and exactly one summary AuditEvent is submitted
after the last chunk. -/
theorem C5_stream_passthrough_and_single_summary (c : VeridionOpenAIMCP)
    (az : VeridionAzureAI) (model mj ms : String) {χ : Type}
    (chunks chunks2 : List χ) (d d2 : Nat)
    (http : LedgerRequest → HttpOutcome) :
    let runO := c.chat_completions_create_stream model mj
      (StreamOutcome.completes chunks d) http
    let runA := az.stream ms model (StreamOutcome.completes chunks2 d2) http
    runO.chunksOut = chunks ∧
    runO.trace = chunks.map StreamItem.chunk ++ runO.posts.map StreamItem.audit ∧
    runO.posts.countP (fun r => r.body.action == "openai_chat_stream") = 1 ∧
    runA.chunksOut = chunks2 ∧
    runA.trace = chunks2.map StreamItem.chunk ++ runA.posts.map StreamItem.audit ∧
    runA.posts.countP (fun r => r.body.action == "azure_ai_stream") = 1 := by
  have hne1 : (("openai_stream_error" : String) == "openai_chat_stream") = false := by
    decide
  have hne2 : (("azure_ai_stream_error" : String) == "azure_ai_stream") = false := by
    decide
  refine ⟨?_, ?_, ?_, ?_, ?_, ?_⟩
  case refine_1 =>
    cases hres : (c.veridion.log_action
        { action := "openai_chat_stream", payload := mj
          inference_time_ms := some d, system_id := some "openai"
          model_name := some model, hardware_type := some "CLOUD" } http).result <;>
      simp [VeridionOpenAIMCP.chat_completions_create_stream, hres,
        log_action_posts_eq, StreamRun.posts, StreamRun.chunksOut,
        filterMap_auditProj, filterMap_chunkProj, filterMap_chunkProj_comp,
        filterMap_auditProj_comp, ← List.map_append,
        List.append_assoc, VeridionClient.buildRequest, chunkProj, auditProj,
        Function.comp, List.filterMap_some,
        List.countP_cons, List.countP_nil, hne1]
  case refine_2 =>
    cases hres : (c.veridion.log_action
        { action := "openai_chat_stream", payload := mj
          inference_time_ms := some d, system_id := some "openai"
          model_name := some model, hardware_type := some "CLOUD" } http).result <;>
      simp [VeridionOpenAIMCP.chat_completions_create_stream, hres,
        log_action_posts_eq, StreamRun.posts, StreamRun.chunksOut,
        filterMap_auditProj, filterMap_chunkProj, filterMap_chunkProj_comp,
        filterMap_auditProj_comp, ← List.map_append,
        List.append_assoc, VeridionClient.buildRequest, chunkProj, auditProj,
        Function.comp, List.filterMap_some,
        List.countP_cons, List.countP_nil, hne1]
  case refine_3 =>
    cases hres : (c.veridion.log_action
        { action := "openai_chat_stream", payload := mj
          inference_time_ms := some d, system_id := some "openai"
          model_name := some model, hardware_type := some "CLOUD" } http).result <;>
      simp [VeridionOpenAIMCP.chat_completions_create_stream, hres,
        log_action_posts_eq, StreamRun.posts, StreamRun.chunksOut,
        filterMap_auditProj, filterMap_chunkProj, filterMap_chunkProj_comp,
        filterMap_auditProj_comp, ← List.map_append,
        List.append_assoc, VeridionClient.buildRequest, chunkProj, auditProj,
        Function.comp, List.filterMap_some,
        List.countP_cons, List.countP_nil, hne1]
  case refine_4 =>
    cases hres : (az.veridion.log_action
        { action := "azure_ai_stream", payload := ms
          inference_time_ms := some d2, system_id := some "azure-ai"
          model_name := some model, hardware_type := some "CLOUD" } http).result <;>
      simp [VeridionAzureAI.stream, hres,
        log_action_posts_eq, StreamRun.posts, StreamRun.chunksOut,
        filterMap_auditProj, filterMap_chunkProj, filterMap_chunkProj_comp,
        filterMap_auditProj_comp, ← List.map_append,
        List.append_assoc, VeridionClient.buildRequest, chunkProj, auditProj,
        Function.comp, List.filterMap_some,
        List.countP_cons, List.countP_nil, hne2]
  case refine_5 =>
    cases hres : (az.veridion.log_action
        { action := "azure_ai_stream", payload := ms
          inference_time_ms := some d2, system_id := some "azure-ai"
          model_name := some model, hardware_type := some "CLOUD" } http).result <;>
      simp [VeridionAzureAI.stream, hres,
        log_action_posts_eq, StreamRun.posts, StreamRun.chunksOut,
        filterMap_auditProj, filterMap_chunkProj, filterMap_chunkProj_comp,
        filterMap_auditProj_comp, ← List.map_append,
        List.append_assoc, VeridionClient.buildRequest, chunkProj, auditProj,
        Function.comp, List.filterMap_some,
        List.countP_cons, List.countP_nil, hne2]
  case refine_6 =>
    cases hres : (az.veridion.log_action
        { action := "azure_ai_stream", payload := ms
          inference_time_ms := some d2, system_id := some "azure-ai"
          model_name := some model, hardware_type := some "CLOUD" } http).result <;>
      simp [VeridionAzureAI.stream, hres,
        log_action_posts_eq, StreamRun.posts, StreamRun.chunksOut,
        filterMap_auditProj, filterMap_chunkProj, filterMap_chunkProj_comp,
        filterMap_auditProj_comp, ← List.map_append,
        List.append_assoc, VeridionClient.buildRequest, chunkProj, auditProj,
        Function.comp, List.filterMap_some,
        List.countP_cons, List.countP_nil, hne2]

/-- C3 counterexample: when the backend raises and the error-path ledger
submission then fails (HTTP 500), the ledger failure — not the original
backend error — is what the caller observes, contradicting "that
secondary failure is discarded and is never raised in place of the
original backend error". -/
theorem C3_counterexample :
    (openaiDefault.chat_completions_create "gpt-4" "msgs"
        (BackendOutcome.raises "boom") http500 : InvokeResult String).result =
      .error (.ledgerFailure (.httpStatusError 500)) ∧
    (openaiDefault.chat_completions_create "gpt-4" "msgs"
        (BackendOutcome.raises "boom") http500 : InvokeResult String).result ≠
      .error (.backendError "boom") := by
  exact ⟨by decide, by decide⟩

/-- C3 (amended): on backend failure, the OpenAI and LangChain async
wrappers attempt exactly one error-variant AuditEvent submission
(error-marked action name, payload `"Error: <msg>"`, no timing or model
fields); the caller observes the original backend error iff that
submission succeeds — if the submission itself raises, the ledger
failure is raised in its place. -/
theorem C3_amended_error_event_and_propagation (c : VeridionOpenAIMCP)
    (w : VeridionLangChainWrapper) (model mj input msg : String) {ρ : Type}
    (http : LedgerRequest → HttpOutcome) :
    let runO : InvokeResult ρ :=
      c.chat_completions_create model mj (BackendOutcome.raises msg) http
    let subO := c.veridion.log_action
      { action := "openai_chat_error", payload := "Error: " ++ msg } http
    let runL : InvokeResult ρ := w.ainvoke input (BackendOutcome.raises msg) http
    let subL := w.veridion.log_action
      { action := "langchain_async_error", payload := "Error: " ++ msg } http
    (runO.posts.map (fun r =>
        (r.body.action, r.body.payload, r.body.inference_time_ms, r.body.model_name)) =
      [("openai_chat_error", "Error: " ++ msg, none, none)]) ∧
    (runO.result = .error (.backendError msg) ↔ ∃ bdy, subO.result = .ok bdy) ∧
    (∀ e, subO.result = .error e → runO.result = .error (.ledgerFailure e)) ∧
    (runL.posts.map (fun r =>
        (r.body.action, r.body.payload, r.body.inference_time_ms, r.body.model_name)) =
      [("langchain_async_error", "Error: " ++ msg, none, none)]) ∧
    (runL.result = .error (.backendError msg) ↔ ∃ bdy, subL.result = .ok bdy) ∧
    (∀ e, subL.result = .error e → runL.result = .error (.ledgerFailure e)) := by
  refine ⟨?_, ?_, ?_, ?_, ?_, ?_⟩
  · simp [VeridionOpenAIMCP.chat_completions_create, log_action_posts_eq,
      VeridionClient.buildRequest]
  · cases hres : (c.veridion.log_action
        { action := "openai_chat_error", payload := "Error: " ++ msg } http).result <;>
      simp [VeridionOpenAIMCP.chat_completions_create, hres]
  · intro e he
    simp [VeridionOpenAIMCP.chat_completions_create, he]
  · simp [VeridionLangChainWrapper.ainvoke, log_action_posts_eq,
      VeridionClient.buildRequest]
  · cases hres : (w.veridion.log_action
        { action := "langchain_async_error", payload := "Error: " ++ msg } http).result <;>
      simp [VeridionLangChainWrapper.ainvoke, hres]
  · intro e he
    simp [VeridionLangChainWrapper.ainvoke, he]

/-- Witness for C3 (amended): with the ledger answering 500, the caller
of both wrappers observes the ledger failure. -/
theorem C3_amended_error_event_and_propagation_witness :
    (openaiDefault.chat_completions_create "gpt-4" "mj"
        (BackendOutcome.raises "boom") http500 : InvokeResult String).result =
      .error (.ledgerFailure (.httpStatusError 500)) ∧
    (lcDefault.ainvoke "in" (BackendOutcome.raises "boom") http500 :
        InvokeResult String).result =
      .error (.ledgerFailure (.httpStatusError 500)) := by
  have h := C3_amended_error_event_and_propagation openaiDefault lcDefault
    "gpt-4" "mj" "in" "boom" (ρ := String) http500
  exact ⟨h.2.2.1 (.httpStatusError 500) rfl, h.2.2.2.2.2 (.httpStatusError 500) rfl⟩

/-- C4 counterexample: with a successful backend call and a ledger that
answers 500, the OpenAI wrapper discards the backend's successful
response, the caller receives the ledger error instead, and an
additional error-variant event submission is even attempted —
contradicting the claim for the awaited-delivery wrappers. -/
theorem C4_counterexample :
    (openaiDefault.chat_completions_create "gpt-4" "msgs"
        (BackendOutcome.ok "RESP" 10) http500).result =
      .error (.ledgerFailure (.httpStatusError 500)) ∧
    (openaiDefault.chat_completions_create "gpt-4" "msgs"
        (BackendOutcome.ok "RESP" 10) http500).result ≠ .ok "RESP" ∧
    ((openaiDefault.chat_completions_create "gpt-4" "msgs"
        (BackendOutcome.ok "RESP" 10) http500).posts.map (fun r => r.body.action)) =
      ["openai_chat_completion", "openai_chat_error"] := by
  exact ⟨by decide, by decide, by decide⟩

/-- C4 (amended): whether an audit-submission failure can override a
backend success depends on the delivery mode.  Detached-delivery
wrappers (Bedrock, HuggingFace, Vertex chat) always return the backend
response whatever the ledger does; awaited-delivery wrappers (OpenAI,
Azure) return the backend response iff the ledger accepted the success
event — on a ledger failure the caller receives an error in its
place. -/
theorem C4_amended_delivery_mode_dependence :
    (∀ (b : VeridionBedrock) (model_id bodyJson : String) {ρ : Type} (resp : ρ)
      (d : Nat) (http : LedgerRequest → HttpOutcome),
      (b.invoke_model model_id bodyJson (BackendOutcome.ok resp d) http).result =
        (if bedrockRegionOk b.region then Except.ok resp
         else .error (.sovereignLock bedrockViolationMsg))) ∧
    (∀ (p : VeridionHuggingFacePipeline) (inputsStr : String) {ρ : Type} (resp : ρ)
      (d : Nat) (http : LedgerRequest → HttpOutcome),
      (p.call inputsStr (BackendOutcome.ok resp d) http).result = .ok resp) ∧
    (∀ (m : VeridionChatModel) (message : String) {ρ : Type} (resp : ρ)
      (d : Nat) (http : LedgerRequest → HttpOutcome),
      (m.send_message message (BackendOutcome.ok resp d) http).result = .ok resp) ∧
    (∀ (c : VeridionOpenAIMCP) (model mj : String) {ρ : Type} (resp : ρ)
      (d : Nat) (http : LedgerRequest → HttpOutcome),
      ((c.chat_completions_create model mj (BackendOutcome.ok resp d) http).result
          = .ok resp ↔
        ∃ bdy, (c.veridion.log_action
          { action := "openai_chat_completion", payload := mj
            inference_time_ms := some d, system_id := some "openai"
            model_name := some model, hardware_type := some "CLOUD" } http).result
          = .ok bdy)) ∧
    (∀ (az : VeridionAzureAI) (ms model : String) {ρ : Type} (resp : ρ)
      (d : Nat) (http : LedgerRequest → HttpOutcome),
      ((az.complete ms model (BackendOutcome.ok resp d) http).result = .ok resp ↔
        ∃ bdy, (az.veridion.log_action
          { action := "azure_ai_completion", payload := ms
            inference_time_ms := some d, system_id := some "azure-ai"
            model_name := some model, hardware_type := some "CLOUD" } http).result
          = .ok bdy)) := by
  refine ⟨?_, ?_, ?_, ?_, ?_⟩
  · intro b model_id bodyJson ρ resp d http
    by_cases hg : bedrockRegionOk b.region <;>
      simp [VeridionBedrock.invoke_model, hg]
  · intro p inputsStr ρ resp d http
    rfl
  · intro m message ρ resp d http
    rfl
  · intro c model mj ρ resp d http
    cases hres : (c.veridion.log_action
        { action := "openai_chat_completion", payload := mj
          inference_time_ms := some d, system_id := some "openai"
          model_name := some model, hardware_type := some "CLOUD" } http).result <;>
      simp [VeridionOpenAIMCP.chat_completions_create, hres]
  · intro az ms model ρ resp d http
    cases hres : (az.veridion.log_action
        { action := "azure_ai_completion", payload := ms
          inference_time_ms := some d, system_id := some "azure-ai"
          model_name := some model, hardware_type := some "CLOUD" } http).result <;>
      simp [VeridionAzureAI.complete, hres]

/-- Witness for C4 (amended): detached Bedrock returns the response even
when the ledger answers 500; awaited OpenAI returns it when the ledger
accepts. -/
theorem C4_amended_delivery_mode_dependence_witness :
    ((VeridionBedrock.mk "eu-west-1" cDefault).invoke_model "model-x" "req"
        (BackendOutcome.ok "resp" 2) http500).result = .ok "resp" ∧
    (openaiDefault.chat_completions_create "gpt-4" "mj"
        (BackendOutcome.ok "resp" 2) httpOk : InvokeResult String).result
      = .ok "resp" := by
  have h := C4_amended_delivery_mode_dependence
  constructor
  · have h1 := h.1 (VeridionBedrock.mk "eu-west-1" cDefault) "model-x" "req"
      "resp" 2 http500
    have hg : bedrockRegionOk "eu-west-1" = true := by decide
    rw [h1]
    simp [hg]
  · exact (h.2.2.2.1 openaiDefault "gpt-4" "mj" "resp" 2 httpOk).mpr ⟨"sealed", rfl⟩

end Veridion
